import Mathlib

/-!
Shallow embedding of frontend/src/Components/SignalRConnector.js (Lidarr).

The component keeps three mutable fields (retryInterval, retryTimeoutId,
disconnectedTime); every event callback is modelled as a pure function from
the current state (plus the ambient inputs it reads: the wall clock in
seconds, the window unloading flag, the connected store props, the id
returned by setTimeout) to the new state together with a trace of the
observable effects it performs (store dispatches, timer scheduling and
clearing, page repopulation, console output, connection starts).

JavaScript truthiness of the numeric fields (null and 0 are both falsy) is
modelled explicitly, as are string operations: String.prototype.replace with
a string pattern replaces only the first occurrence.
-/

/-- Mutable instance state of the SignalRConnector component, as initialised
by the constructor (lines 70-78 of the source). disconnectedTime holds whole
seconds since the epoch; retryTimeoutId holds the value returned by
setTimeout. -/
structure ConnectorState where
  retryInterval : Nat
  retryTimeoutId : Option Nat
  disconnectedTime : Option Int
deriving DecidableEq, Repr

/-- The state established by the constructor: retryInterval = 1, no pending
timer, no disconnected time. -/
def initialState : ConnectorState :=
  { retryInterval := 1, retryTimeoutId := none, disconnectedTime := none }

/-- The two store props the component reads in onConnected
(state.app.isReconnecting, state.app.isDisconnected). -/
structure AppProps where
  isReconnecting : Bool
  isDisconnected : Bool
deriving DecidableEq, Repr

/-- The attrs object passed to setAppValue: each field is present (some) or
absent (none) in the dispatched object. Field order follows the source:
isConnected, isReconnecting, isDisconnected, isRestarting. -/
structure AppValueAttrs where
  isConnected : Option Bool
  isReconnecting : Option Bool
  isDisconnected : Option Bool
  isRestarting : Option Bool
deriving DecidableEq, Repr

/-- The resource carried by a command message; only its status field is
inspected by handleCommand, the id stands for the rest of the payload. -/
structure CommandResource where
  id : Nat
  status : String
deriving DecidableEq, Repr

/-- Body of a command message: an action string and a resource. -/
structure CommandBody where
  action : String
  resource : CommandResource
deriving DecidableEq, Repr

/-- Store actions the modelled code paths can dispatch. -/
inductive StoreAction where
  | setAppValue (attrs : AppValueAttrs)
  | fetchCommands
  | updateCommand (resource : CommandResource)
  | finishCommand (resource : CommandResource)
  | fetchArtist
deriving DecidableEq, Repr

/-- Observable effects of one callback invocation, in program order. -/
inductive Ev where
  | dispatch (a : StoreAction)
  | schedule (delayMs : Nat)
  | clearTimer
  | startConn
  | repopulate
  | debug (msg : String)
  | errorLog (msg : String)
deriving DecidableEq, Repr

/-- True exactly on store-dispatch events. -/
def isDispatchEv : Ev → Bool
  | Ev.dispatch _ => true
  | _ => false

/-- JavaScript truthiness of a nullable number: null and 0 are falsy. -/
def truthyOptNat : Option Nat → Bool
  | none => false
  | some n => n != 0

/-- JavaScript truthiness of a nullable integer: null and 0 are falsy. -/
def truthyOptInt : Option Int → Bool
  | none => false
  | some t => t != 0

/-- isAppDisconnected (source lines 17-23): false when disconnectedTime is
falsy (null or 0), otherwise whether more than 180 seconds have elapsed
between it and the current whole-second clock. -/
def isAppDisconnected (nowSec : Int) (disconnectedTime : Option Int) : Bool :=
  match disconnectedTime with
  | none => false
  | some t => if t = 0 then false else decide (nowSec - t > 180)

/-- Modelled from the spec: the title-casing helper
(Utilities/String/titleCase, a collaborator outside src/). It uppercases the
first letter of each word of the input, where a word is a maximal run of
alphanumeric characters; like the source helper it maps a falsy (empty)
input to the empty string. The flag tracks whether the next alphanumeric
character starts a word. -/
def titleCaseChars : Bool → List Char → List Char
  | _, [] => []
  | atWordStart, c :: cs =>
    if c.isAlphanum then
      (if atWordStart then c.toUpper else c) :: titleCaseChars false cs
    else
      c :: titleCaseChars true cs

/-- Modelled from the spec: see titleCaseChars. -/
def titleCase (s : String) : String :=
  if s.isEmpty then "" else String.mk (titleCaseChars true s.data)

/-- JavaScript String.prototype.replace with the string pattern "/" and
replacement "": removes only the first slash. -/
def removeFirstSlash : List Char → List Char
  | [] => []
  | c :: cs => if c = '/' then cs else c :: removeFirstSlash cs

/-- getHandlerName (source lines 25-30): title-case the name, remove the
first slash, prefix with the fixed string handle. -/
def getHandlerName (name : String) : String :=
  "handle" ++ String.mk (removeFirstSlash (titleCase name).data)

/-- The transformation the claim text describes instead: uppercase only the
first letter of the message name and prefix it with handle. Stated for
comparison with getHandlerName. -/
def getHandlerNameClaimed (name : String) : String :=
  "handle" ++
    (match name.data with
     | [] => ""
     | c :: cs => String.mk (c.toUpper :: cs))

/-- The instance methods of the component whose names begin with handle;
these are exactly the properties a bracket lookup of a handler name can
find. -/
inductive Handler where
  | message
  | calendar
  | command
  | album
  | track
  | trackfile
  | health
  | artist
  | queue
  | queueDetails
  | queueStatus
  | version
  | wantedCutoff
  | wantedMissing
  | systemTask
  | rootfolder
  | tag
deriving DecidableEq, Repr

/-- Property table of the component instance, restricted to the
handle-prefixed properties (the only ones a getHandlerName result can hit).
-/
def instanceHandlers : List (String × Handler) :=
  [("handleMessage", Handler.message),
   ("handleCalendar", Handler.calendar),
   ("handleCommand", Handler.command),
   ("handleAlbum", Handler.album),
   ("handleTrack", Handler.track),
   ("handleTrackfile", Handler.trackfile),
   ("handleHealth", Handler.health),
   ("handleArtist", Handler.artist),
   ("handleQueue", Handler.queue),
   ("handleQueueDetails", Handler.queueDetails),
   ("handleQueueStatus", Handler.queueStatus),
   ("handleVersion", Handler.version),
   ("handleWantedCutoff", Handler.wantedCutoff),
   ("handleWantedMissing", Handler.wantedMissing),
   ("handleSystemTask", Handler.systemTask),
   ("handleRootfolder", Handler.rootfolder),
   ("handleTag", Handler.tag)]

/-- Bracket property lookup on the instance for a computed handler name. -/
def lookupHandler (n : String) : Option Handler :=
  (instanceHandlers.find? fun p => p.1 == n).map Prod.snd

/-- An incoming generic message: a name and an opaque body (raw payload). -/
structure Message where
  name : String
  body : String
deriving DecidableEq, Repr

/-- Outcome of routing one message: either an instance method is invoked
with the message body, or an error is logged. -/
inductive RouteResult where
  | invoked (h : Handler) (body : String)
  | errorLogged (msg : String)
deriving DecidableEq, Repr

/-- handleMessage (source lines 132-146): look up the instance property
named by getHandlerName; if truthy, call it with the body and return,
otherwise log an error. -/
def handleMessage (m : Message) : RouteResult :=
  match lookupHandler (getHandlerName m.name) with
  | some h => RouteResult.invoked h m.body
  | none => RouteResult.errorLogged ("signalR: Unable to find handler for " ++ m.name)

/-- handleCommand (source lines 158-175): a sync action fetches commands and
returns; otherwise a completed or failed resource status finishes the
command and every other status updates it. -/
def handleCommand (body : CommandBody) : List Ev :=
  if body.action = "sync" then
    [Ev.dispatch StoreAction.fetchCommands]
  else
    let resource := body.resource
    let status := resource.status
    if status = "completed" || status = "failed" then
      [Ev.dispatch (StoreAction.finishCommand resource)]
    else
      [Ev.dispatch (StoreAction.updateCommand resource)]

/-- retryConnection (source lines 114-130): build the attrs object, call the
imported setAppValue action creator on it (the source calls the creator
directly, not the bound prop dispatchSetAppValue, so the created action is
discarded and never dispatched), then schedule startConnection after
retryInterval seconds and record the timeout id. The retryInterval update
happens inside the timeout callback and is modelled by timerFired. -/
def retryConnection (nowSec : Int) (timerId : Nat) (s : ConnectorState) :
    ConnectorState × List Ev :=
  let attrs : AppValueAttrs :=
    if isAppDisconnected nowSec s.disconnectedTime then
      ⟨some false, some true, some true, none⟩
    else
      ⟨none, some true, none, none⟩
  let _actionCreatedButNotDispatched := StoreAction.setAppValue attrs
  ({ s with retryTimeoutId := some timerId },
   [Ev.schedule (s.retryInterval * 1000)])

/-- The body of the setTimeout callback in retryConnection (source lines
126-129): start the connection, then bump retryInterval by one capped at 10.
-/
def timerFired (s : ConnectorState) : ConnectorState × List Ev :=
  ({ s with retryInterval := min (s.retryInterval + 1) 10 }, [Ev.startConn])

/-- onConnected (source lines 284-317): clear disconnectedTime; refetch
artists and commands and repopulate the page when the store reports
reconnecting or disconnected; dispatch the connected flags; set
retryInterval to 5; clear the pending timeout when its id is truthy. -/
def onConnected (props : AppProps) (s : ConnectorState) :
    ConnectorState × List Ev :=
  let s1 : ConnectorState := { s with disconnectedTime := none }
  let refetchEvs :=
    if props.isReconnecting || props.isDisconnected then
      [Ev.dispatch StoreAction.fetchArtist,
       Ev.dispatch StoreAction.fetchCommands,
       Ev.repopulate]
    else []
  let appEv := Ev.dispatch (StoreAction.setAppValue ⟨some true, some false, some false, some false⟩)
  let s2 : ConnectorState := { s1 with retryInterval := 5 }
  let clearEvs := if truthyOptNat s.retryTimeoutId then [Ev.clearTimer] else []
  (s2, Ev.debug "[signalR] connected" :: refetchEvs ++ appEv :: clearEvs)

/-- onClose (source lines 331-343): return immediately when the window is
unloading; otherwise record the current whole-second time when
disconnectedTime is falsy and retry the connection. -/
def onClose (unloading : Bool) (nowSec : Int) (timerId : Nat) (s : ConnectorState) :
    ConnectorState × List Ev :=
  if unloading then
    (s, [Ev.debug "[signalR] connection closed"])
  else
    let s1 :=
      if truthyOptInt s.disconnectedTime then s
      else { s with disconnectedTime := some nowSec }
    let r := retryConnection nowSec timerId s1
    (r.1, Ev.debug "[signalR] connection closed" :: r.2)

/-- onError (source lines 345-357): identical to onClose apart from the log
line. -/
def onError (unloading : Bool) (nowSec : Int) (timerId : Nat) (s : ConnectorState) :
    ConnectorState × List Ev :=
  if unloading then
    (s, [Ev.debug "[signalR] connection error"])
  else
    let s1 :=
      if truthyOptInt s.disconnectedTime then s
      else { s with disconnectedTime := some nowSec }
    let r := retryConnection nowSec timerId s1
    (r.1, Ev.debug "[signalR] connection error" :: r.2)

/-- One full failure cycle: a close event (not unloading) followed by the
scheduled timeout firing. -/
def failCycle (nowSec : Int) (timerId : Nat) (s : ConnectorState) : ConnectorState :=
  (timerFired (onClose false nowSec timerId s).1).1

/-- The component state after n consecutive failure cycles starting from the
constructor state. -/
def stateAfterFails (nowSec : Int) (timerId : Nat) : Nat → ConnectorState
  | 0 => initialState
  | n + 1 => failCycle nowSec timerId (stateAfterFails nowSec timerId n)

/-- True exactly on timer-scheduling events. -/
def isScheduleEv : Ev → Bool
  | Ev.schedule _ => true
  | _ => false

theorem truthyOptInt_ne_none {dt : Option Int} (h : truthyOptInt dt = true) :
    dt ≠ none := by
  cases dt with
  | none => simp [truthyOptInt] at h
  | some t => simp

theorem onClose_false_run (nowSec : Int) (timerId : Nat) (s : ConnectorState) :
    onClose false nowSec timerId s =
      ({ retryInterval := s.retryInterval,
         retryTimeoutId := some timerId,
         disconnectedTime :=
           if truthyOptInt s.disconnectedTime then s.disconnectedTime
           else some nowSec },
       [Ev.debug "[signalR] connection closed",
        Ev.schedule (s.retryInterval * 1000)]) := by
  unfold onClose retryConnection
  by_cases h : truthyOptInt s.disconnectedTime <;> simp [h]

theorem onError_false_run (nowSec : Int) (timerId : Nat) (s : ConnectorState) :
    onError false nowSec timerId s =
      ({ retryInterval := s.retryInterval,
         retryTimeoutId := some timerId,
         disconnectedTime :=
           if truthyOptInt s.disconnectedTime then s.disconnectedTime
           else some nowSec },
       [Ev.debug "[signalR] connection error",
        Ev.schedule (s.retryInterval * 1000)]) := by
  unfold onError retryConnection
  by_cases h : truthyOptInt s.disconnectedTime <;> simp [h]

theorem stateAfterFails_interval (nowSec : Int) (timerId : Nat) (n : Nat) :
    (stateAfterFails nowSec timerId n).retryInterval = min (n + 1) 10 := by
  induction n with
  | zero => rfl
  | succ n ih =>
    show (failCycle nowSec timerId (stateAfterFails nowSec timerId n)).retryInterval = _
    unfold failCycle timerFired
    rw [onClose_false_run]
    simp only [ih]
    omega

/-- Claim C1: the reconnection policy is a linear backoff capped at 10
seconds. Starting from the constructor state, after n consecutive failure
cycles retryInterval equals min (n+1) 10: it starts at 1, grows by exactly
one per scheduled attempt until saturating at 10, never exceeds 10, and the
delay scheduled for the next attempt is retryInterval seconds
(retryInterval * 1000 milliseconds). -/
theorem claim_C1_linear_backoff (nowSec : Int) (timerId : Nat) (n : Nat) :
    (stateAfterFails nowSec timerId 0).retryInterval = 1 ∧
    (stateAfterFails nowSec timerId n).retryInterval = min (n + 1) 10 ∧
    (stateAfterFails nowSec timerId (n + 1)).retryInterval =
      min ((stateAfterFails nowSec timerId n).retryInterval + 1) 10 ∧
    (stateAfterFails nowSec timerId n).retryInterval ≤ 10 ∧
    Ev.schedule ((stateAfterFails nowSec timerId n).retryInterval * 1000) ∈
      (onClose false nowSec timerId (stateAfterFails nowSec timerId n)).2 := by
  have h := stateAfterFails_interval nowSec timerId n
  have h1 := stateAfterFails_interval nowSec timerId (n + 1)
  refine ⟨rfl, h, ?_, ?_, ?_⟩
  · rw [h, h1]; omega
  · rw [h]; omega
  · rw [onClose_false_run]; simp

/-- Claim C2 counterexample: on the message name queue/details the code
computes the handler name handleQueueDetails (title-case both words, drop
the slash) and invokes the queue-details handler, whereas uppercasing only
the first letter would give handleQueue/details, a name no instance method
bears. -/
theorem claim_C2_counterexample :
    getHandlerName "queue/details" = "handleQueueDetails" ∧
    getHandlerNameClaimed "queue/details" = "handleQueue/details" ∧
    getHandlerName "queue/details" ≠ getHandlerNameClaimed "queue/details" ∧
    handleMessage ⟨"queue/details", "payload"⟩ =
      RouteResult.invoked Handler.queueDetails "payload" ∧
    lookupHandler (getHandlerNameClaimed "queue/details") = none := by
  decide

/-- Claim C2 (amended): for every incoming generic message, the handler is
selected by title-casing the message name (uppercasing the first letter of
each word), removing the first slash, and prefixing the fixed string handle;
if an instance method of that name exists it is invoked with the message
body, otherwise an error is logged and nothing else happens. -/
theorem claim_C2_amended_handler_selection (m : Message) :
    getHandlerName m.name =
      "handle" ++ String.mk (removeFirstSlash (titleCase m.name).data) ∧
    ((∃ hd, lookupHandler (getHandlerName m.name) = some hd ∧
        handleMessage m = RouteResult.invoked hd m.body) ∨
     (lookupHandler (getHandlerName m.name) = none ∧
      handleMessage m =
        RouteResult.errorLogged ("signalR: Unable to find handler for " ++ m.name))) := by
  refine ⟨rfl, ?_⟩
  cases h : lookupHandler (getHandlerName m.name) with
  | none => exact Or.inr ⟨rfl, by simp [handleMessage, h]⟩
  | some hd => exact Or.inl ⟨hd, rfl, by simp [handleMessage, h]⟩

/-- Claim C3 counterexample: a close or error event arriving while the
window is unloading neither records a failure nor schedules a retry; the
claim universally quantified over every close and every error event fails
on this input. -/
theorem claim_C3_counterexample :
    onClose true 1000 7 initialState =
      (initialState, [Ev.debug "[signalR] connection closed"]) ∧
    onError true 1000 7 initialState =
      (initialState, [Ev.debug "[signalR] connection error"]) := by
  decide

/-- Claim C3 (amended): for every close and every error event that occurs
while the application is not unloading, the component records the failure (a
disconnected time is set afterwards), schedules a new connection attempt
after retryInterval seconds recording the timeout id, and dispatches no
store action. -/
theorem claim_C3_amended_log_and_retry (nowSec : Int) (timerId : Nat) (s : ConnectorState) :
    ((onClose false nowSec timerId s).1.disconnectedTime ≠ none ∧
     (onClose false nowSec timerId s).1.retryTimeoutId = some timerId ∧
     Ev.schedule (s.retryInterval * 1000) ∈ (onClose false nowSec timerId s).2 ∧
     (onClose false nowSec timerId s).2.filter isDispatchEv = []) ∧
    ((onError false nowSec timerId s).1.disconnectedTime ≠ none ∧
     (onError false nowSec timerId s).1.retryTimeoutId = some timerId ∧
     Ev.schedule (s.retryInterval * 1000) ∈ (onError false nowSec timerId s).2 ∧
     (onError false nowSec timerId s).2.filter isDispatchEv = []) := by
  rw [onClose_false_run, onError_false_run]
  refine ⟨⟨?_, rfl, by simp, rfl⟩, ⟨?_, rfl, by simp, rfl⟩⟩ <;>
  · by_cases h : truthyOptInt s.disconnectedTime = true
    · simpa [h] using truthyOptInt_ne_none h
    · simp [h]

/-- Claim C4, evaluated at the failing input: retryConnection calls the
imported setAppValue action creator instead of the bound dispatch prop, so
no store action is dispatched on a retry attempt, neither in the ordinary
case nor after a prolonged outage; by contrast onConnected does dispatch the
connected-flags action on a successful connection. -/
theorem claim_C4_retry_dispatch_lost :
    (retryConnection 1000 7 initialState).2.filter isDispatchEv = [] ∧
    (retryConnection 1000 7
        { retryInterval := 3, retryTimeoutId := some 2, disconnectedTime := some 500 }).2.filter
      isDispatchEv = [] ∧
    isAppDisconnected 1000 (some 500) = true ∧
    Ev.dispatch (StoreAction.setAppValue ⟨some true, some false, some false, some false⟩) ∈
      (onConnected ⟨true, false⟩ initialState).2 := by
  decide

/-- Claim C5 counterexample: the constructor initialises retryInterval to 1,
but a successful connection open sets it to 5, not back to its initial value
of 1. -/
theorem claim_C5_counterexample :
    initialState.retryInterval = 1 ∧
    (onConnected ⟨false, false⟩
        { retryInterval := 7, retryTimeoutId := some 3, disconnectedTime := some 50 }).1.retryInterval = 5 := by
  decide

/-- Claim C5 (amended): on every successful connection open the pending
retry timer is cancelled exactly when a truthy timeout id is recorded, the
disconnected time is reset to null, and the retry interval is set to 5
seconds (not to its initial value of 1). -/
theorem claim_C5_amended_backoff_reset (props : AppProps) (s : ConnectorState) :
    (onConnected props s).1.disconnectedTime = none ∧
    (onConnected props s).1.retryInterval = 5 ∧
    (Ev.clearTimer ∈ (onConnected props s).2 ↔ truthyOptNat s.retryTimeoutId = true) := by
  refine ⟨rfl, rfl, ?_⟩
  unfold onConnected
  cases hp : props.isReconnecting || props.isDisconnected <;>
    cases hq : truthyOptNat s.retryTimeoutId <;>
      simp [hp, hq]

/-- Claim C6: on every successful connection open, each of the refetch
effects (fetch artists, fetch commands, repopulate the page) occurs if and
only if the store reports the app as reconnecting or disconnected; with
neither flag set none of them occurs. -/
theorem claim_C6_conditional_refetch (props : AppProps) (s : ConnectorState) :
    (Ev.dispatch StoreAction.fetchArtist ∈ (onConnected props s).2 ↔
      (props.isReconnecting || props.isDisconnected) = true) ∧
    (Ev.dispatch StoreAction.fetchCommands ∈ (onConnected props s).2 ↔
      (props.isReconnecting || props.isDisconnected) = true) ∧
    (Ev.repopulate ∈ (onConnected props s).2 ↔
      (props.isReconnecting || props.isDisconnected) = true) := by
  unfold onConnected
  cases hp : props.isReconnecting || props.isDisconnected <;>
    cases hq : truthyOptNat s.retryTimeoutId <;>
      simp [hp, hq]

/-- Claim C7: message routing is a flat name-to-method lookup; the routing
outcome is a function of the message name alone, so two messages with equal
names select the same handler, or produce the same error log, regardless of
their bodies. -/
theorem claim_C7_routing_name_only (m1 m2 : Message) (hname : m1.name = m2.name) :
    (∀ hd b, handleMessage m1 = RouteResult.invoked hd b →
      handleMessage m2 = RouteResult.invoked hd m2.body) ∧
    (∀ msg, handleMessage m1 = RouteResult.errorLogged msg →
      handleMessage m2 = RouteResult.errorLogged msg) := by
  unfold handleMessage
  rw [hname]
  cases lookupHandler (getHandlerName m2.name) <;> simp

/-- Claim C7 witness: two command messages with different bodies route to
the same handler. -/
theorem claim_C7_witness :
    handleMessage ⟨"command", "bodyB"⟩ = RouteResult.invoked Handler.command "bodyB" :=
  (claim_C7_routing_name_only ⟨"command", "bodyA"⟩ ⟨"command", "bodyB"⟩ rfl).1
    Handler.command "bodyA" (by decide)

/-- Claim C8: while the application is unloading, a close or error event
leaves the component state (and in particular the disconnected time)
unchanged, dispatches no store action, and schedules no retry. -/
theorem claim_C8_unloading_noop (nowSec : Int) (timerId : Nat) (s : ConnectorState) :
    (onClose true nowSec timerId s).1 = s ∧
    (onClose true nowSec timerId s).1.disconnectedTime = s.disconnectedTime ∧
    (onClose true nowSec timerId s).2.filter isDispatchEv = [] ∧
    (onClose true nowSec timerId s).2.filter isScheduleEv = [] ∧
    (onError true nowSec timerId s).1 = s ∧
    (onError true nowSec timerId s).1.disconnectedTime = s.disconnectedTime ∧
    (onError true nowSec timerId s).2.filter isDispatchEv = [] ∧
    (onError true nowSec timerId s).2.filter isScheduleEv = [] :=
  ⟨rfl, rfl, rfl, rfl, rfl, rfl, rfl, rfl⟩

/-- Claim C9 counterexample: a disconnected time of 0 is set (non-null) with
more than 180 seconds elapsed, yet the app is not classified as
disconnected; and a close event with disconnected time 0 overwrites it even
though it is not null. -/
theorem claim_C9_counterexample :
    isAppDisconnected 200 (some 0) = false ∧
    (some (0 : Int) ≠ (none : Option Int) ∧ (200 : Int) - 0 > 180) ∧
    (onClose false 555 7
        { retryInterval := 1, retryTimeoutId := none, disconnectedTime := some 0 }).1.disconnectedTime =
      some 555 := by
  refine ⟨by decide, ⟨by decide, by decide⟩, ?_⟩
  rw [onClose_false_run]
  decide

/-- Claim C9 (amended): the disconnected time is overwritten with the
current whole-second clock exactly when it is falsy (null or 0) on a close
or error event outside unload, is cleared to null on every successful
connect, and the app is classified as disconnected if and only if a nonzero
disconnected time is set and more than 180 seconds have elapsed since it. -/
theorem claim_C9_amended_disconnected_time (nowSec : Int) (timerId : Nat)
    (s : ConnectorState) (props : AppProps) (t : Int) :
    (onClose false nowSec timerId s).1.disconnectedTime =
      (if truthyOptInt s.disconnectedTime then s.disconnectedTime else some nowSec) ∧
    (onError false nowSec timerId s).1.disconnectedTime =
      (if truthyOptInt s.disconnectedTime then s.disconnectedTime else some nowSec) ∧
    (onConnected props s).1.disconnectedTime = none ∧
    (isAppDisconnected nowSec (some t) = true ↔ (t ≠ 0 ∧ nowSec - t > 180)) ∧
    isAppDisconnected nowSec none = false := by
  refine ⟨by rw [onClose_false_run], by rw [onError_false_run], rfl, ?_, rfl⟩
  by_cases h : t = 0 <;> simp [isAppDisconnected, h]

/-- Claim C10: a command message with the sync action dispatches exactly one
fetchCommands action and nothing else; for any other action, finishCommand
is dispatched with the resource if and only if the resource status is
completed or failed, updateCommand is dispatched with the resource for every
other status, and exactly one action is dispatched in all cases. -/
theorem claim_C10_command_dispatch (body : CommandBody) :
    (body.action = "sync" → handleCommand body = [Ev.dispatch StoreAction.fetchCommands]) ∧
    (body.action ≠ "sync" →
      ((Ev.dispatch (StoreAction.finishCommand body.resource) ∈ handleCommand body) ↔
        (body.resource.status = "completed" ∨ body.resource.status = "failed")) ∧
      ((Ev.dispatch (StoreAction.updateCommand body.resource) ∈ handleCommand body) ↔
        ¬(body.resource.status = "completed" ∨ body.resource.status = "failed"))) ∧
    (handleCommand body).length = 1 := by
  unfold handleCommand
  by_cases ha : body.action = "sync"
  · simp [ha]
  · by_cases hs : body.resource.status = "completed" ∨ body.resource.status = "failed" <;>
      simp [ha, hs]

/-- Claim C10 witness: a sync command fetches commands; a completed command
is finished; a started command is updated. -/
theorem claim_C10_witness :
    handleCommand ⟨"sync", ⟨1, "started"⟩⟩ = [Ev.dispatch StoreAction.fetchCommands] ∧
    (Ev.dispatch (StoreAction.finishCommand ⟨2, "completed"⟩) ∈
      handleCommand ⟨"updated", ⟨2, "completed"⟩⟩) ∧
    (Ev.dispatch (StoreAction.updateCommand ⟨3, "started"⟩) ∈
      handleCommand ⟨"updated", ⟨3, "started"⟩⟩) :=
  ⟨(claim_C10_command_dispatch ⟨"sync", ⟨1, "started"⟩⟩).1 (by decide),
   (((claim_C10_command_dispatch ⟨"updated", ⟨2, "completed"⟩⟩).2.1 (by decide)).1).mpr
     (by decide),
   (((claim_C10_command_dispatch ⟨"updated", ⟨3, "started"⟩⟩).2.1 (by decide)).2).mpr
     (by decide)⟩
